import Mathlib

/-!
Verification of the pyloudnorm loudness measurement library.

Shallow embedding of the source files:
  pyloudnorm/meter.py      (Meter, IIRfilter, integrated_loudness)
  pyloudnorm/util.py       (input validation)
  pyloudnorm/normalize.py  (peak and loudness normalization)

Numbers: the Python code computes with IEEE floats.  The embedding uses
exact arithmetic: sample values and filter parameters are real numbers,
and the quantities the code manipulates as exact small decimals
(sampling rate, block size, overlap, thresholds, rounding and slicing
indices) are rationals, so that the index calculations are executable.
Transcendental operations (log10, sin, cos, sqrt, pi, 10**x) are the
corresponding Mathlib real functions; where the float code would produce
inf or nan, the embedding makes the case explicit (Option, or the
documented junk value of the total real function).
-/

namespace Pyloudnorm

/-- Python exceptions that the embedded code can raise. -/
inductive PyError where
  | valueError
  | invalidAudio
  | internalError
  deriving DecidableEq, Repr

/-- `np.round` on an exact value: round half to even (banker rounding),
as numpy does. -/
def npRound (q : ℚ) : ℤ :=
  let f : ℤ := ⌊q⌋
  let r : ℚ := q - f
  if r < 1/2 then f
  else if 1/2 < r then f + 1
  else if f % 2 = 0 then f else f + 1

/-- Python `int(...)` on a float value: truncation toward zero. -/
def pyInt (q : ℚ) : ℤ :=
  if q < 0 then ⌈q⌉ else ⌊q⌋

/-- Python slice `xs[l:u]` for integer bounds `0 ≤ l`, `0 ≤ u`:
the slice is clipped to the length of the list.  (Negative bounds, which
Python would wrap around, do not occur on the paths modelled here; they
are mapped to 0 by `Int.toNat`.) -/
def pySlice {α : Type} (xs : List α) (l u : ℤ) : List α :=
  (xs.take u.toNat).drop l.toNat

/-- `np.mean` of a list: `none` models the NaN that numpy produces
(with a RuntimeWarning, suppressed by the source) on an empty list. -/
def pyMean {α : Type} [DivisionRing α] (xs : List α) : Option α :=
  if xs.length = 0 then none else some (xs.sum / (xs.length : α))

/-- `np.nan_to_num` applied to a possibly-NaN scalar: NaN becomes 0. -/
def nanToNum (o : Option ℝ) : ℝ := o.getD 0

/-- `np.sum` over a list of possibly-NaN scalars: any NaN poisons the sum. -/
def optSum (l : List (Option ℝ)) : Option ℝ :=
  l.foldr (fun o acc =>
    match o, acc with
    | some x, some y => some (x + y)
    | _, _ => none) (some 0)

/-- `np.max` of a list; numpy raises on an empty array, which does not
occur on the modelled paths (the value 0 stands in for that case). -/
def npMax (xs : List ℝ) : ℝ :=
  match xs with
  | [] => 0
  | x :: t => t.foldl max x

/-- Mean of a known-nonempty list (used where the source has already
checked nonemptiness). -/
noncomputable def listMeanD (xs : List ℝ) : ℝ := xs.sum / (xs.length : ℝ)

/-- `np.log10`.  Total on ℝ: `log10 x = 0` for `x ≤ 0`, where the float
code would give -inf (for 0) or NaN (for negatives) under suppressed
warnings.  No claim below depends on the value at nonpositive inputs. -/
noncomputable def log10 (x : ℝ) : ℝ := Real.logb 10 x

/-- The multichannel audio buffer handed to the meter, channel-major:
`channels` lists the samples of each channel.  A 1-D (mono) numpy input
corresponds to a single channel; the reshape at meter.py:74-75 is the
identity in this representation.  `isFloat` records whether the numpy
dtype is a floating-point one. -/
structure AudioND where
  isFloat : Bool
  channels : List (List ℝ)

/-- `data.shape[0]`: the common length of the channels (the length of
the first channel; well-formed numpy arrays are rectangular). -/
def numSamplesOf (a : AudioND) : ℕ :=
  match a.channels with
  | [] => 0
  | c :: _ => c.length

/-- Modelled from the spec: `util.valid_audio(data, rate, block_size)`
is called by `Meter.integrated_loudness` (meter.py:72) but is absent
from the source snapshot (util.py only defines the dtype-coercion helper
`validate_input_data`).  Per spec sections 4.2 and 7, the input fails
with an InvalidAudio error iff it is not floating-point, has more than
5 channels, or has fewer samples than one block_size at the given rate;
the checks run before any filtering. -/
def valid_audio (a : AudioND) (rate block_size : ℚ) : Except PyError Unit :=
  if a.isFloat = false then .error .invalidAudio
  else if 5 < a.channels.length then .error .invalidAudio
  else if (numSamplesOf a : ℚ) < block_size * rate then .error .invalidAudio
  else .ok ()

/-! ### IIR filters (meter.py, class IIRfilter) -/

/-- The filter shapes that appear in the source (the string values of
`filter_type`). -/
inductive FilterType where
  | high_shelf
  | peaking
  | high_pass
  | notch
  deriving DecidableEq, Repr

/-- Normalized biquad coefficients `[b0, b1, b2]`, `[a0, a1, a2]` as
returned by `IIRfilter.generate_filter_coefficients` (meter.py:228). -/
structure BiquadCoeffs where
  b0 : ℝ
  b1 : ℝ
  b2 : ℝ
  a0 : ℝ
  a1 : ℝ
  a2 : ℝ

/-- `IIRfilter.generate_filter_coefficients` (meter.py:185-228): the
coefficient generator used by the IIRfilter embedded in the Meter.  It
supports the shapes high_shelf, peaking and high_pass and raises
ValueError for every other shape.  All six coefficients are divided by
the unnormalized `a0`. -/
noncomputable def generate_filter_coefficients (G Q fc : ℝ) (rate : ℚ)
    (ftype : FilterType) : Except PyError BiquadCoeffs :=
  let A : ℝ := (10 : ℝ) ^ (G / 40)
  let w0 : ℝ := 2 * Real.pi * (fc / (rate : ℝ))
  let alpha : ℝ := Real.sin w0 / (2 * Q)
  match ftype with
  | .high_shelf =>
    let b0 := A * ((A + 1) + (A - 1) * Real.cos w0 + 2 * Real.sqrt A * alpha)
    let b1 := -2 * A * ((A - 1) + (A + 1) * Real.cos w0)
    let b2 := A * ((A + 1) + (A - 1) * Real.cos w0 - 2 * Real.sqrt A * alpha)
    let a0 := (A + 1) - (A - 1) * Real.cos w0 + 2 * Real.sqrt A * alpha
    let a1 := 2 * ((A - 1) - (A + 1) * Real.cos w0)
    let a2 := (A + 1) - (A - 1) * Real.cos w0 - 2 * Real.sqrt A * alpha
    .ok ⟨b0 / a0, b1 / a0, b2 / a0, a0 / a0, a1 / a0, a2 / a0⟩
  | .peaking =>
    let b0 := 1 + alpha * A
    let b1 := -2 * Real.cos w0
    let b2 := 1 - alpha * A
    let a0 := 1 + alpha / A
    let a1 := -2 * Real.cos w0
    let a2 := 1 - alpha / A
    .ok ⟨b0 / a0, b1 / a0, b2 / a0, a0 / a0, a1 / a0, a2 / a0⟩
  | .high_pass =>
    let b0 := (1 + Real.cos w0) / 2
    let b1 := -(1 + Real.cos w0)
    let b2 := (1 + Real.cos w0) / 2
    let a0 := 1 + alpha
    let a1 := -2 * Real.cos w0
    let a2 := 1 - alpha
    .ok ⟨b0 / a0, b1 / a0, b2 / a0, a0 / a0, a1 / a0, a2 / a0⟩
  | _ => .error .valueError

/-- The high-shelf coefficient derivation exactly as the spec words it
(section 4.1): `A = 10^(G/40)`, `w0 = 2π·fc/rate`, `alpha = sin(w0)/(2Q)`,
the six listed polynomials, all divided by `a0`. -/
noncomputable def specHighShelf (G Q fc : ℝ) (rate : ℚ) : BiquadCoeffs :=
  let A : ℝ := (10 : ℝ) ^ (G / 40)
  let w0 : ℝ := 2 * Real.pi * (fc / (rate : ℝ))
  let alpha : ℝ := Real.sin w0 / (2 * Q)
  let b0 := A * ((A + 1) + (A - 1) * Real.cos w0 + 2 * Real.sqrt A * alpha)
  let b1 := -2 * A * ((A - 1) + (A + 1) * Real.cos w0)
  let b2 := A * ((A + 1) + (A - 1) * Real.cos w0 - 2 * Real.sqrt A * alpha)
  let a0 := (A + 1) - (A - 1) * Real.cos w0 + 2 * Real.sqrt A * alpha
  let a1 := 2 * ((A - 1) - (A + 1) * Real.cos w0)
  let a2 := (A + 1) - (A - 1) * Real.cos w0 - 2 * Real.sqrt A * alpha
  ⟨b0 / a0, b1 / a0, b2 / a0, a0 / a0, a1 / a0, a2 / a0⟩

/-- The unnormalized high-shelf `a0` term (the divisor in
`specHighShelf` and in the high_shelf branch of the source). -/
noncomputable def specHighShelfA0 (G Q fc : ℝ) (rate : ℚ) : ℝ :=
  let A : ℝ := (10 : ℝ) ^ (G / 40)
  let w0 : ℝ := 2 * Real.pi * (fc / (rate : ℝ))
  let alpha : ℝ := Real.sin w0 / (2 * Q)
  (A + 1) - (A - 1) * Real.cos w0 + 2 * Real.sqrt A * alpha

/-- An `IIRfilter` instance: parameters plus the coefficients computed
at construction (meter.py:154-160). -/
structure IIRfilt where
  G : ℝ
  Q : ℝ
  fc : ℝ
  rate : ℚ
  ftype : FilterType
  coeffs : BiquadCoeffs

/-- `IIRfilter.__init__` (meter.py:154-160): stores the parameters and
computes the coefficients; a ValueError from the generator propagates. -/
noncomputable def mkIIRfilter (G Q fc : ℝ) (rate : ℚ) (ftype : FilterType) :
    Except PyError IIRfilt :=
  match generate_filter_coefficients G Q fc rate ftype with
  | .error e => .error e
  | .ok c => .ok ⟨G, Q, fc, rate, ftype, c⟩

/-- One step of the direct-form-I biquad recursion of
`scipy.signal.lfilter` with zero initial state, normalized by `a0`:
`y[n] = (b0·x[n] + b1·x[n-1] + b2·x[n-2] - a1·y[n-1] - a2·y[n-2]) / a0`. -/
noncomputable def lfilterGo (c : BiquadCoeffs) :
    ℝ → ℝ → ℝ → ℝ → List ℝ → List ℝ
  | _, _, _, _, [] => []
  | x1, x2, y1, y2, x :: xs =>
    let y := (c.b0 * x + c.b1 * x1 + c.b2 * x2 - c.a1 * y1 - c.a2 * y2) / c.a0
    y :: lfilterGo c x x1 y y1 xs

/-- `scipy.signal.lfilter(b, a, data)` for a biquad, zero initial
conditions. -/
noncomputable def lfilter (c : BiquadCoeffs) (data : List ℝ) : List ℝ :=
  lfilterGo c 0 0 0 0 data

/-- `IIRfilter.apply_filter` (meter.py:259-272). -/
noncomputable def apply_filter (f : IIRfilt) (data : List ℝ) : List ℝ :=
  lfilter f.coeffs data

/-! ### Meter construction (meter.py, class Meter) -/

/-- The recognized weighting-filter classes (the `filter_class` strings
accepted by `Meter.__init__`, meter.py:36-50). -/
inductive FilterClass where
  | kWeighting
  | fentonLee1
  | fentonLee2
  | dashEtAl
  deriving DecidableEq, Repr

/-- A constructed `Meter` (meter.py:29-50).  `filters` is the insertion-
ordered content of the `self.filters` dict; `stage1_filter` and
`stage2_filter` are the separate attributes that only the
"Fenton/Lee 2" branch sets. -/
structure Meter where
  rate : ℚ
  filter_class : FilterClass
  block_size : ℚ
  filters : List IIRfilt
  stage1_filter : Option IIRfilt
  stage2_filter : Option IIRfilt

/-- `Meter.__init__` (meter.py:29-50): builds the weighting filters for
the requested class; an error from any `IIRfilter` construction
propagates. -/
noncomputable def mkMeter (rate : ℚ) (fclass : FilterClass) (block_size : ℚ) :
    Except PyError Meter :=
  match fclass with
  | .kWeighting =>
    match mkIIRfilter 4 (1 / Real.sqrt 2) 1500 rate .high_shelf with
    | .error e => .error e
    | .ok hs =>
      match mkIIRfilter 0 0.5 38 rate .high_pass with
      | .error e => .error e
      | .ok hp => .ok ⟨rate, fclass, block_size, [hs, hp], none, none⟩
  | .fentonLee1 =>
    match mkIIRfilter 5 (1 / Real.sqrt 2) 1500 rate .high_shelf with
    | .error e => .error e
    | .ok hs =>
      match mkIIRfilter 0 0.5 130 rate .high_pass with
      | .error e => .error e
      | .ok hp =>
        match mkIIRfilter 0 (1 / Real.sqrt 2) 500 rate .peaking with
        | .error e => .error e
        | .ok pk => .ok ⟨rate, fclass, block_size, [hs, hp, pk], none, none⟩
  | .fentonLee2 =>
    match mkIIRfilter 4 (1 / Real.sqrt 2) 1500 rate .high_shelf with
    | .error e => .error e
    | .ok s1 =>
      match mkIIRfilter 0 0.5 38 rate .high_pass with
      | .error e => .error e
      | .ok s2 => .ok ⟨rate, fclass, block_size, [], some s1, some s2⟩
  | .dashEtAl =>
    match mkIIRfilter 0 0.375 149 rate .high_pass with
    | .error e => .error e
    | .ok hp =>
      match mkIIRfilter 3.4 (1 / Real.sqrt 2) 1500 rate .notch with
      | .error e => .error e
      | .ok nt => .ok ⟨rate, fclass, block_size, [hp, nt], none, none⟩

/-! ### Integrated loudness (meter.py:52-131) -/

/-- The serial application of the weighting filters of the meter to one
channel (meter.py:81-83: the outer loop runs over the filters in dict
order, the output of each stage feeding the next). -/
noncomputable def applyFilters (fs : List IIRfilt) (ch : List ℝ) : List ℝ :=
  fs.foldl (fun d f => apply_filter f d) ch

/-- The filtered signal, per channel. -/
noncomputable def filteredChannels (fs : List IIRfilt)
    (chans : List (List ℝ)) : List (List ℝ) :=
  chans.map (applyFilters fs)

/-- `numSamples` of a channel-major buffer. -/
def numSamplesChans (chans : List (List ℝ)) : ℕ :=
  match chans with
  | [] => 0
  | c :: _ => c.length

/-- The channel gains `G = [1.0, 1.0, 1.0, 1.41, 1.41]` (meter.py:87);
indices past the list (which would be an IndexError in Python, and are
unreachable after validation) give 0. -/
noncomputable def channelGains (i : ℕ) : ℝ :=
  [(1 : ℝ), 1, 1, 1.41, 1.41].getD i 0

/-- Total number of gating blocks (meter.py:95):
`int(np.round((T - T_g) / (T_g * step)) + 1)`. -/
def numBlocksCalc (numSamples : ℕ) (rate T_g step : ℚ) : ℤ :=
  npRound (((numSamples : ℚ) / rate - T_g) / (T_g * step)) + 1

/-- Lower integration bound in samples (meter.py:100):
`l = int(T_g * (j * step) * rate)`. -/
def lowerIdx (T_g step rate : ℚ) (j : ℕ) : ℤ :=
  pyInt (T_g * ((j : ℚ) * step) * rate)

/-- Upper integration bound in samples (meter.py:101):
`u = int(T_g * (j * step + 1) * rate)`. -/
def upperIdx (T_g step rate : ℚ) (j : ℕ) : ℤ :=
  pyInt (T_g * ((j : ℚ) * step + 1) * rate)

/-- Block mean-square energy (meter.py:103):
`z[i,j] = (1 / (T_g * rate)) * np.sum(np.square(input_data[l:u, i]))`. -/
noncomputable def blockEnergy (T_g rate : ℚ) (l u : ℤ) (ch : List ℝ) : ℝ :=
  ((1 / (T_g * rate) : ℚ) : ℝ) * ((pySlice ch l u).map (fun x => x ^ 2)).sum

/-- `z[i,j]` for channel `i` of the filtered signal and block `j`. -/
noncomputable def zBlock (T_g step rate : ℚ) (chans : List (List ℝ))
    (i j : ℕ) : ℝ :=
  blockEnergy T_g rate (lowerIdx T_g step rate j) (upperIdx T_g step rate j)
    (chans.getD i [])

/-- Per-block loudness list (meter.py:108):
`l_j = -0.691 + 10 * log10(sum_i G[i] * z[i,j])` for `j` in
`np.arange(0, numBlocks)`. -/
noncomputable def blockLoudness (rate T_g overlap : ℚ) (fs : List IIRfilt)
    (chans : List (List ℝ)) : List ℝ :=
  let fchans := filteredChannels fs chans
  let step := 1 - overlap
  let nb := numBlocksCalc (numSamplesChans chans) rate T_g step
  (List.range nb.toNat).map (fun j =>
    -0.691 + 10 * log10 (((List.range fchans.length).map
      (fun i => channelGains i * zBlock T_g step rate fchans i j)).sum))

/-- Absolute gating pass (meter.py:111): the indices `j` with
`l_j >= Gamma_a` where `Gamma_a = -70.0`. -/
noncomputable def gateAbsIdx (l : List ℝ) : List ℕ :=
  (List.range l.length).filter (fun j => decide ((-70 : ℝ) ≤ l.getD j 0))

/-- Relative gating pass (meter.py:121): the indices `j` with
`l_j > Gamma_r and l_j > Gamma_a` (both strict), `Gamma_a = -70.0`. -/
noncomputable def gateRelIdx (gammaR : ℝ) (l : List ℝ) : List ℕ :=
  (List.range l.length).filter (fun j =>
    decide (gammaR < l.getD j 0 ∧ (-70 : ℝ) < l.getD j 0))

/-- The gated per-channel average energy after the relative pass,
NaN-sanitized (meter.py:125):
`np.nan_to_num([np.mean([z[i,j] for j in J_g]) for i in ...])`,
one channel at a time. -/
noncomputable def zAvgGatedSan (z : ℕ → ℕ → ℝ) (Jg : List ℕ) (i : ℕ) : ℝ :=
  nanToNum (pyMean (Jg.map (fun j => z i j)))

/-- The body of `Meter.integrated_loudness` after validation
(meter.py:77-131), with the gating-block parameters explicit.  The
source fixes `overlap = 0.75` locally (meter.py:90); the parameter is
instantiated with `3/4` by `integrated_loudness` below and is also used
by the spec-modelled LRA meter, which overrides it. -/
noncomputable def measureCore (rate T_g overlap : ℚ) (fs : List IIRfilt)
    (chans : List (List ℝ)) : ℝ :=
  let fchans := filteredChannels fs chans
  let step := 1 - overlap
  let nC := fchans.length
  let lblocks := blockLoudness rate T_g overlap fs chans
  let Jg1 := gateAbsIdx lblocks
  let zAvg1 : ℕ → Option ℝ := fun i =>
    pyMean (Jg1.map (fun j => zBlock T_g step rate fchans i j))
  let gammaR : Option ℝ :=
    (optSum ((List.range nC).map
      (fun i => (zAvg1 i).map (fun v => channelGains i * v)))).map
      (fun s => -0.691 + 10 * log10 s - 10)
  let Jg2 : List ℕ :=
    match gammaR with
    | none => []
    | some g => gateRelIdx g lblocks
  let zAvg2 : ℕ → ℝ := fun i =>
    zAvgGatedSan (fun i j => zBlock T_g step rate fchans i j) Jg2 i
  let LUFS : ℝ := -0.691 + 10 * log10 (((List.range nC).map
    (fun i => channelGains i * zAvg2 i)).sum)
  LUFS

/-- `Meter.integrated_loudness` (meter.py:52-131): validate, then
measure.  The local `overlap = 0.75` of meter.py:90 appears as the
literal `3/4`. -/
noncomputable def integrated_loudness (m : Meter) (a : AudioND) :
    Except PyError ℝ :=
  match valid_audio a m.rate m.block_size with
  | .error e => .error e
  | .ok _ => .ok (measureCore m.rate m.block_size (3/4) m.filters a.channels)

/-! ### Loudness range (LRA) — modelled from the spec

The source snapshot has no `Meter.loudness_range` and no `overlap`
attribute on `Meter`; only tests/test_loudness_range.py refers to them.
The definitions below are modelled from spec section 4.3 (and the Meter
data model of section 3, which gives the meter a mutable `overlap`
attribute, default 0.75, that the measurement reads). -/

/-- Modelled from the spec: the Meter state that `loudness_range`
manipulates — `block_size` and `overlap` are the temporarily overridden
attributes (spec sections 3 and 4.3). -/
structure SpecMeterState where
  rate : ℚ
  block_size : ℚ
  overlap : ℚ
  filters : List IIRfilt

/-- Modelled from the spec: `integrated_loudness` as section 4.2 words
it, reading `block_size` and `overlap` from the meter state (the source
snapshot instead hardcodes the overlap, meter.py:90). -/
noncomputable def integratedLoudnessS (s : SpecMeterState) (a : AudioND) :
    Except PyError ℝ :=
  match valid_audio a s.rate s.block_size with
  | .error e => .error e
  | .ok _ => .ok (measureCore s.rate s.block_size s.overlap s.filters a.channels)

/-- Modelled from the spec: percentile with linear interpolation
(spec section 4.3 step 7), the numpy default method:
`h = (n-1)·p/100`, interpolate between the surrounding sorted values. -/
noncomputable def percentile (xs : List ℝ) (p : ℝ) : ℝ :=
  let sorted := xs.insertionSort (fun x y => x ≤ y)
  let n := sorted.length
  let h : ℝ := ((n : ℝ) - 1) * p / 100
  let k : ℤ := ⌊h⌋
  let lo := sorted.getD k.toNat 0
  let hi := sorted.getD (k.toNat + 1) lo
  lo + (h - (k : ℝ)) * (hi - lo)

/-- Modelled from the spec: append 1.5 seconds of silence (zeros,
matching channel count) to the input (spec section 4.3 step 2); the
sample count is `int(1.5 * rate)`. -/
def padSilence (a : AudioND) (rate : ℚ) : AudioND :=
  { a with channels :=
      a.channels.map (fun c => c ++ List.replicate (pyInt (3/2 * rate)).toNat 0) }

/-- Modelled from the spec: `Meter.loudness_range` (spec section 4.3).
Returns the meter state after the call together with the outcome:
a raised error, NaN (`none`), or the LRA value.  Steps: save
block_size/overlap; set block_size = 3.0 s, overlap = 0.97; pad with
1.5 s of silence; run the integrated-loudness machinery to obtain the
per-block loudness values (a validation error propagates, no blocks is
an internal error); absolute gate at -70 LUFS (NaN if empty); relative
threshold = 10·log10(mean(10^(l/10))) - 20; gate again with ≥ (NaN if
empty); LRA = 95th - 10th percentile; restore block_size/overlap
unconditionally on every exit path. -/
noncomputable def loudness_range (s : SpecMeterState) (a : AudioND) :
    SpecMeterState × Except PyError (Option ℝ) :=
  let s2 : SpecMeterState := { s with block_size := 3, overlap := 97/100 }
  let padded := padSilence a s.rate
  let r : Except PyError (Option ℝ) :=
    match valid_audio padded s2.rate s2.block_size with
    | .error e => .error e
    | .ok _ =>
      let stl := blockLoudness s2.rate s2.block_size s2.overlap s2.filters
        padded.channels
      if stl.length = 0 then .error .internalError
      else
        let g1 := stl.filter (fun v => decide ((-70 : ℝ) ≤ v))
        if g1.length = 0 then .ok none
        else
          let stlInt := 10 * log10 (listMeanD (g1.map (fun v => (10:ℝ) ^ (v/10))))
          let g2 := g1.filter (fun v => decide (stlInt - 20 ≤ v))
          if g2.length = 0 then .ok none
          else .ok (some (percentile g2 95 - percentile g2 10))
  ({ s2 with block_size := s.block_size, overlap := s.overlap }, r)

/-! ### Normalization (normalize.py) -/

/-- `normalize.peak(data, fs, target_peak)` (normalize.py:6-35):
`gain = 10^(target_peak/20) / max(|data|)`, scale every sample.  The
`fs` argument is unused by the computation; the clipping check only
emits a warning and does not change the returned data. -/
noncomputable def peak (data : List ℝ) (fs : ℚ) (target_peak : ℝ) : List ℝ :=
  let current_peak := npMax (data.map (fun x => |x|))
  let gain := (10 : ℝ) ^ (target_peak / 20) / current_peak
  data.map (fun x => gain * x)

/-- `normalize.loudness(data, fs, target_loudness)` (normalize.py:37-68).
Modelled from the spec: the measurement dependency
`pyloudnorm.loudness.measure_gated_loudness` is absent from the source
snapshot (no module `pyloudnorm/loudness.py` exists), so the embedding
takes the measurement function as a parameter.  The body always
re-measures the input loudness from `(data, fs)`; there is no parameter
accepting a precomputed loudness value. -/
noncomputable def loudnessNormalize (measure : List ℝ → ℚ → ℝ)
    (data : List ℝ) (fs : ℚ) (target_loudness : ℝ) : List ℝ :=
  let input_loudness := measure data fs
  let delta_loudness := target_loudness - input_loudness
  let gain := (10 : ℝ) ^ (delta_loudness / 20)
  data.map (fun x => gain * x)

/-! ### Helper lemmas -/

/-- Summing squares over a `take` prefix equals the index-sum with
out-of-range reads defaulting to 0 (squares of the default 0 vanish). -/
theorem take_map_sq_sum (m : ℕ) (xs : List ℝ) :
    ((xs.take m).map (fun x => x ^ 2)).sum =
      ∑ k ∈ Finset.range m, (xs.getD k 0) ^ 2 := by
  induction m generalizing xs with
  | zero => simp
  | succ n ih =>
    cases xs with
    | nil => simp
    | cons x t =>
      rw [List.take_succ_cons, List.map_cons, List.sum_cons, ih,
        Finset.sum_range_succ']
      simp [add_comm]

/-- Reading past a `drop` shifts the index. -/
theorem getD_drop_zero (n k : ℕ) (xs : List ℝ) :
    (xs.drop n).getD k 0 = xs.getD (n + k) 0 := by
  induction n generalizing xs with
  | zero => simp
  | succ i ih =>
    cases xs with
    | nil => simp
    | cons x t => simp [Nat.succ_add, ih t]

/-- The sum of squares over a Python slice `xs[l:u]` equals the sum of
squared (0-defaulted) reads over the index interval. -/
theorem pySlice_sq_sum (xs : List ℝ) (l u : ℤ) :
    ((pySlice xs l u).map (fun x => x ^ 2)).sum =
      ∑ k ∈ Finset.Ico l.toNat u.toNat, (xs.getD k 0) ^ 2 := by
  unfold pySlice
  rw [List.drop_take, take_map_sq_sum, Finset.sum_Ico_eq_sum_range]
  exact Finset.sum_congr rfl (fun k _ => by rw [getD_drop_zero])

/-! ### Claims -/

/-- Claim C1: `integrated_loudness` raises InvalidAudio iff the data
is not floating-point, has more than 5 channels, or has fewer samples
than one block_size at the rate of the meter; when all three conditions are
satisfied no error is raised and the measurement runs; and the error
outcome does not depend on the filters of the meter (the check runs before
any filtering). -/
theorem c1_validation_iff (m : Meter) (a : AudioND) :
    (integrated_loudness m a = .error .invalidAudio ↔
      (a.isFloat = false ∨ 5 < a.channels.length ∨
        ((numSamplesOf a : ℚ) < m.block_size * m.rate)))
    ∧ ((a.isFloat = true ∧ a.channels.length ≤ 5 ∧
        ¬((numSamplesOf a : ℚ) < m.block_size * m.rate)) →
      integrated_loudness m a =
        .ok (measureCore m.rate m.block_size (3/4) m.filters a.channels))
    ∧ (∀ fl, integrated_loudness { m with filters := fl } a =
          .error .invalidAudio ↔
        integrated_loudness m a = .error .invalidAudio) := by
  unfold integrated_loudness valid_audio
  split_ifs with h1 h2 h3 <;> simp_all

/-- Witness for C1: a concrete valid input (floating-point, 1 channel,
1 sample ≥ block_size·rate = 2/5) on which the measurement proceeds. -/
theorem c1_validation_iff_witness :
    integrated_loudness ⟨1, .kWeighting, 2/5, [], none, none⟩
        ⟨true, [[(0 : ℝ)]]⟩ =
      .ok (measureCore 1 (2/5) (3/4) [] [[(0 : ℝ)]]) :=
  (c1_validation_iff ⟨1, .kWeighting, 2/5, [], none, none⟩
    ⟨true, [[(0 : ℝ)]]⟩).2.1 ⟨rfl, by norm_num, by norm_num [numSamplesOf]⟩

/-- Claim C2: after `loudness_range` returns — on every exit path (the
outcome component covers the raised-error, NaN and value paths
uniformly) — the `block_size` and `overlap` of the meter equal their
pre-call values, and a subsequent `integrated_loudness` call on the
returned state gives exactly the value it would have given before. -/
theorem c2_loudness_range_restores (s : SpecMeterState) (a : AudioND) :
    ((loudness_range s a).1.block_size = s.block_size ∧
      (loudness_range s a).1.overlap = s.overlap) ∧
    ∀ b, integratedLoudnessS (loudness_range s a).1 b =
      integratedLoudnessS s b :=
  ⟨⟨rfl, rfl⟩, fun _ => rfl⟩

/-- Claim C3 (amended): `numBlocks = round((T - T_g)/(T_g·step)) + 1`;
the lower bound is the truncation of `T_g·(j·step)·rate`; the block
energy is `1/(T_g·rate)` times the sum of squared filtered samples over
`[l, u)` (out-of-range indices contributing nothing, as the clipped
Python slice does); and the upper bound, itself computed by truncating
`T_g·(j·step + 1)·rate`, equals `l + T_g·rate` whenever `T_g·rate` is
an integer (for non-integral `T_g·rate` the claimed `u = l + T_g·rate`
fails, see the counterexample). -/
theorem c3_block_indexing (T_g step rate : ℚ) (ch : List ℝ) (ns j : ℕ)
    (N : ℤ) (hT : 0 ≤ T_g) (hr : 0 ≤ rate) (hstep : 0 ≤ step) :
    numBlocksCalc ns rate T_g step =
      npRound (((ns : ℚ) / rate - T_g) / (T_g * step)) + 1
    ∧ lowerIdx T_g step rate j = pyInt (T_g * ((j : ℚ) * step) * rate)
    ∧ blockEnergy T_g rate (lowerIdx T_g step rate j)
        (upperIdx T_g step rate j) ch =
        ((1 / (T_g * rate) : ℚ) : ℝ) *
          ∑ k ∈ Finset.Ico (lowerIdx T_g step rate j).toNat
            (upperIdx T_g step rate j).toNat, (ch.getD k 0) ^ 2
    ∧ (T_g * rate = (N : ℚ) →
        upperIdx T_g step rate j = lowerIdx T_g step rate j + N) := by
  refine ⟨rfl, rfl, ?_, ?_⟩
  · unfold blockEnergy
    rw [pySlice_sq_sum]
  · intro hN
    have hx : 0 ≤ T_g * ((j : ℚ) * step) * rate :=
      mul_nonneg (mul_nonneg hT (mul_nonneg (Nat.cast_nonneg j) hstep)) hr
    have hN0 : (0 : ℚ) ≤ (N : ℚ) := hN ▸ mul_nonneg hT hr
    have key : T_g * ((j : ℚ) * step + 1) * rate =
        T_g * ((j : ℚ) * step) * rate + (N : ℚ) := by
      rw [← hN]; ring
    unfold upperIdx lowerIdx pyInt
    rw [key, if_neg (not_lt.2 (by linarith)), if_neg (not_lt.2 hx),
      Int.floor_add_int]

/-- Witness for C3 (amended): block_size 2/5 s at rate 5 Hz has
`T_g·rate = 2` samples per block, and for block `j = 1` the computed
upper bound equals the lower bound plus 2. -/
theorem c3_block_indexing_witness :
    upperIdx (2/5) (1/4) 5 1 = lowerIdx (2/5) (1/4) 5 1 + 2 :=
  (c3_block_indexing (2/5) (1/4) 5 [(1 : ℝ)] 2 1 2 (by norm_num)
    (by norm_num) (by norm_num)).2.2.2 (by norm_num)

/-- Counterexample for C3 as stated: with block_size 2/5 s at rate
3 Hz (so `T_g·rate = 6/5` is not an integer), for block `j = 0` the
upper bound computed by the code is `int(6/5) = 1`, which is not `l + T_g·rate =
0 + 6/5`. -/
theorem c3_upper_bound_cex :
    ((upperIdx (2/5) (1/4) 3 0 : ℤ) : ℚ) ≠
      ((lowerIdx (2/5) (1/4) 3 0 : ℤ) : ℚ) + (2/5) * 3 := by
  norm_num [upperIdx, lowerIdx, pyInt]

/-- Claim C4: the absolute gating pass keeps exactly the blocks with
`l_j ≥ -70.0` (non-strict), and the relative pass keeps exactly the
blocks with `l_j > Gamma_r` and `l_j > -70.0` (both strict), for every
loudness sequence and every relative threshold. -/
theorem c4_gating_asymmetry (l : List ℝ) (gammaR : ℝ) (j : ℕ) :
    (j ∈ gateAbsIdx l ↔ j < l.length ∧ (-70 : ℝ) ≤ l.getD j 0)
    ∧ (j ∈ gateRelIdx gammaR l ↔
        j < l.length ∧ (gammaR < l.getD j 0 ∧ (-70 : ℝ) < l.getD j 0)) := by
  constructor <;>
    simp [gateAbsIdx, gateRelIdx, List.mem_filter, List.mem_range]

/-- Claim C5: in the gated-average step after the relative pass, the
per-channel average is NaN exactly when the gated block set is empty,
and any such NaN average is replaced by 0, so the channel contributes
zero energy to the weighted sum. -/
theorem c5_nan_sanitization (z : ℕ → ℕ → ℝ) (Jg : List ℕ) (i : ℕ) :
    (pyMean (Jg.map (fun j => z i j)) = none ↔ Jg = [])
    ∧ (pyMean (Jg.map (fun j => z i j)) = none →
        zAvgGatedSan z Jg i = 0 ∧
          channelGains i * zAvgGatedSan z Jg i = 0) := by
  constructor
  · cases Jg with
    | nil => simp [pyMean]
    | cons a t => simp [pyMean]
  · intro h
    have hz : zAvgGatedSan z Jg i = 0 := by
      simp [zAvgGatedSan, h, nanToNum]
    exact ⟨hz, by rw [hz, mul_zero]⟩

/-- Witness for C5: an empty gated set gives a sanitized average of 0
and a zero contribution to the weighted sum. -/
theorem c5_nan_sanitization_witness :
    zAvgGatedSan (fun _ _ => (0 : ℝ)) [] 0 = 0 ∧
      channelGains 0 * zAvgGatedSan (fun _ _ => (0 : ℝ)) [] 0 = 0 :=
  (c5_nan_sanitization (fun _ _ => (0 : ℝ)) [] 0).2 rfl

/-- Claim C6 (amended): for the high_shelf shape the generator returns
exactly the formulas of the spec (A = 10^(G/40), w0 = 2π·fc/rate,
alpha = sin(w0)/(2Q), the six listed polynomials, every coefficient
divided by the unnormalized a0); whenever the unnormalized a0 is
nonzero the returned a0 equals 1 (when it is zero the division is
degenerate and the returned a0 is not 1, see the counterexample); and
identical inputs always give identical coefficients. -/
theorem c6_high_shelf_coefficients (G Q fc : ℝ) (rate : ℚ) :
    generate_filter_coefficients G Q fc rate .high_shelf =
      .ok (specHighShelf G Q fc rate)
    ∧ (specHighShelfA0 G Q fc rate ≠ 0 → (specHighShelf G Q fc rate).a0 = 1)
    ∧ (∀ G2 Q2 fc2 : ℝ, ∀ r2 : ℚ,
        G = G2 → Q = Q2 → fc = fc2 → rate = r2 →
        generate_filter_coefficients G Q fc rate .high_shelf =
          generate_filter_coefficients G2 Q2 fc2 r2 .high_shelf) := by
  refine ⟨rfl, ?_, ?_⟩
  · intro h
    exact div_self h
  · rintro G2 Q2 fc2 r2 rfl rfl rfl rfl
    rfl

/-- Witness for C6 (amended): at G = 0, Q = 1, fc = 0, rate = 1 the
unnormalized a0 equals 2, so the returned a0 is 1. -/
theorem c6_high_shelf_coefficients_witness : (specHighShelf 0 1 0 1).a0 = 1 :=
  (c6_high_shelf_coefficients 0 1 0 1).2.1 (by
    unfold specHighShelfA0
    norm_num [Real.cos_zero, Real.sin_zero])

/-- Counterexample for C6 as stated: at G = 0, Q = 1/2, fc = 3,
rate = 4 we get A = 1, w0 = 3π/2, alpha = -1, so the unnormalized a0 is
0 and the returned a0 is 0/0, which is not 1 (in float arithmetic it is
NaN, likewise not 1). -/
theorem c6_a0_cex :
    ((generate_filter_coefficients 0 (1/2) 3 4 .high_shelf).toOption.map
        BiquadCoeffs.a0) = some 0
    ∧ ((generate_filter_coefficients 0 (1/2) 3 4 .high_shelf).toOption.map
        BiquadCoeffs.a0) ≠ some 1 := by
  have hA : (10 : ℝ) ^ ((0 : ℝ) / 40) = 1 := by
    rw [show ((0 : ℝ) / 40) = 0 by norm_num, Real.rpow_zero]
  have hw : 2 * Real.pi * ((3 : ℝ) / ((4 : ℚ) : ℝ)) = Real.pi + Real.pi / 2 := by
    push_cast
    ring
  have hcos : Real.cos (2 * Real.pi * ((3 : ℝ) / ((4 : ℚ) : ℝ))) = 0 := by
    rw [hw, Real.cos_add]
    simp
  have hsin : Real.sin (2 * Real.pi * ((3 : ℝ) / ((4 : ℚ) : ℝ))) = -1 := by
    rw [hw, Real.sin_add]
    simp
  have ha0 : (specHighShelf 0 (1/2) 3 4).a0 = 0 := by
    simp only [specHighShelf]
    rw [hA, hcos, hsin]
    norm_num
  have h1 : generate_filter_coefficients 0 (1/2) 3 4 .high_shelf =
      .ok (specHighShelf 0 (1/2) 3 4) := rfl
  refine ⟨?_, ?_⟩
  · rw [h1]
    show some ((specHighShelf 0 (1/2) 3 4).a0) = some 0
    rw [ha0]
  · rw [h1]
    show ¬(some ((specHighShelf 0 (1/2) 3 4).a0) = some 1)
    rw [ha0]
    simp

/-- Claim C7: `normalize.peak` scales every sample by
`10^(target_db/20) / max(|data|)` (same shape as the input, and with no
special case for silent input — the same formula applies whatever the
maximum is), and peak-normalizing the single value 0.5 to a 0.0 dB
target returns exactly 1. -/
theorem c7_peak_normalize :
    (∀ (d : List ℝ) (fs : ℚ) (t : ℝ),
      peak d fs t = d.map (fun x =>
        (10 : ℝ) ^ (t / 20) / npMax (d.map (fun v => |v|)) * x))
    ∧ (∀ fs : ℚ, peak [(1/2 : ℝ)] fs 0 = [1]) := by
  refine ⟨fun d fs t => rfl, fun fs => ?_⟩
  simp [peak, npMax]
  rw [show |(2 : ℝ)⁻¹| = 2⁻¹ from abs_of_pos (by norm_num)]
  norm_num

/-- Claim C8 (supporting theorem): the function `normalize.loudness` of the source
always scales by `10^((target - measure(data, fs))/20)` — its second
parameter is consumed as the sampling rate by the (missing) measurement
routine, so no caller-supplied precomputed loudness is ever used. -/
theorem c8_loudness_always_measures (measure : List ℝ → ℚ → ℝ)
    (d : List ℝ) (fs : ℚ) (t : ℝ) :
    loudnessNormalize measure d fs t =
      d.map (fun x => (10 : ℝ) ^ ((t - measure d fs) / 20) * x) := rfl

/-- Claim C9: constructing a Meter with the recognized filter class
"Dash et al." always raises ValueError, because that branch builds an
IIRfilter with shape notch while the coefficient generator used by the Meter
supports only high_shelf, peaking and high_pass, raising ValueError for
every other shape. -/
theorem c9_dash_et_al_value_error :
    (∀ rate block_size : ℚ,
      mkMeter rate .dashEtAl block_size = .error .valueError)
    ∧ (∀ (G Q fc : ℝ) (rate : ℚ) (ftype : FilterType),
        ftype ≠ .high_shelf → ftype ≠ .peaking → ftype ≠ .high_pass →
        generate_filter_coefficients G Q fc rate ftype =
          .error .valueError) := by
  constructor
  · intro rate block_size
    rfl
  · intro G Q fc rate ftype h1 h2 h3
    cases ftype with
    | high_shelf => exact absurd rfl h1
    | peaking => exact absurd rfl h2
    | high_pass => exact absurd rfl h3
    | notch => rfl

/-- Witness for C9: the notch shape (the one the "Dash et al." branch
requests) is rejected by the generator. -/
theorem c9_dash_et_al_value_error_witness :
    generate_filter_coefficients 0 1 0 1 .notch = .error .valueError :=
  c9_dash_et_al_value_error.2 0 1 0 1 .notch (by decide) (by decide)
    (by decide)

/-- Claim C10: a Meter built with filter class "Fenton/Lee 2" has an
empty `filters` dict (the two stages go into the separate
stage1_filter/stage2_filter attributes), so its `integrated_loudness`
applies no frequency weighting (the filter cascade is the identity) and
never reads the stage attributes. -/
theorem c10_fenton_lee_2_unfiltered (rate block_size : ℚ) :
    ∃ m : Meter, mkMeter rate .fentonLee2 block_size = .ok m
      ∧ m.filters = []
      ∧ (∀ chans, filteredChannels m.filters chans = chans)
      ∧ (∀ (a : AudioND) (f1 f2 : Option IIRfilt),
          integrated_loudness
            { m with stage1_filter := f1, stage2_filter := f2 } a =
          integrated_loudness m a) := by
  refine ⟨_, rfl, rfl, ?_, ?_⟩
  · intro chans
    show List.map (applyFilters []) chans = chans
    rw [show (applyFilters []) = id from rfl, List.map_id]
  · intro a f1 f2
    rfl

end Pyloudnorm
